import Mathlib

/-!
Verification of the blacklist plugin (`src/main.py`) of
`astrbot_plugin_blacklist_tools`.

The plugin's gateway/policy layer (`MyPlugin` in `src/main.py`) is embedded
shallowly below.  The record store (`BlacklistDatabase`, in `database.py`,
which is not part of the sources available here) is modelled from the spec's
§4.1 contract.  Timestamps are modelled as natural numbers (seconds); the
Python code uses ISO datetime strings, but only the ordering of instants and
the duration arithmetic matter to the claims.
-/

namespace BlacklistTools

/-- A blacklist record: `user_id` (unique key), `ban_time` (creation
instant), optional `expire_time` (absent means permanent), free-text
`reason`. -/
structure BlacklistEntry where
  user_id : String
  ban_time : Nat
  expire_time : Option Nat
  reason : String
deriving Repr, DecidableEq

/-- Modelled from the spec: the backing state of `BlacklistDatabase`
(`database.py` is not among the available sources).  `entries` is the
persisted table in stable (ban-time / insertion) order; `broken` models the
spec's storage-fault condition, under which mutating operations log and
return `false` instead of raising. -/
structure BlacklistDB where
  entries : List BlacklistEntry
  broken : Bool
deriving Repr, DecidableEq

/-- An entry is active at instant `now` when its expiry, if present, has not
yet passed (spec §8: blacklisted while `now < expire_time`, always when
`expire_time` is absent). -/
def entryActive (now : Nat) (e : BlacklistEntry) : Bool :=
  match e.expire_time with
  | none => true
  | some t => now < t

/-- Modelled from the spec: `is_user_blacklisted(user_id)`.  Returns whether
the user is currently blacklisted, applying expiry semantics, and lazily
purges the user's row when it is observed to be expired.  The returned pair
is (answer, post-state). -/
def BlacklistDB.is_user_blacklisted (db : BlacklistDB) (now : Nat)
    (uid : String) : Bool × BlacklistDB :=
  match db.entries.find? (fun e => e.user_id == uid) with
  | none => (false, db)
  | some e =>
    if entryActive now e then (true, db)
    else (false, { db with entries := db.entries.filter (fun x => x.user_id != uid) })

/-- Modelled from the spec: `add_user(user_id, ban_time, expire_time,
reason)`.  Inserts or replaces the entry for `user_id` (upsert by
delete-then-insert); returns `false` and leaves the state untouched on a
storage fault. -/
def BlacklistDB.add_user (db : BlacklistDB) (uid : String) (ban : Nat)
    (expire : Option Nat) (reason : String) : Bool × BlacklistDB :=
  if db.broken then (false, db)
  else (true, { db with
    entries := db.entries.filter (fun x => x.user_id != uid) ++ [⟨uid, ban, expire, reason⟩] })

/-- Modelled from the spec: `remove_user(user_id)`.  Deletes the entry if
present; `true` iff a row was removed; `false` on absence or storage
fault. -/
def BlacklistDB.remove_user (db : BlacklistDB) (uid : String) : Bool × BlacklistDB :=
  if db.broken then (false, db)
  else match db.entries.find? (fun e => e.user_id == uid) with
    | none => (false, db)
    | some _ => (true, { db with entries := db.entries.filter (fun x => x.user_id != uid) })

/-- Modelled from the spec: `get_user_info(user_id)` — expiry-aware lookup;
returns the record or `none`, lazily purging an expired row. -/
def BlacklistDB.get_user_info (db : BlacklistDB) (now : Nat)
    (uid : String) : Option BlacklistEntry × BlacklistDB :=
  match db.entries.find? (fun e => e.user_id == uid) with
  | none => (none, db)
  | some e =>
    if entryActive now e then (some e, db)
    else (none, { db with entries := db.entries.filter (fun x => x.user_id != uid) })

/-- The active entries, in stable store order. -/
def BlacklistDB.activeEntries (db : BlacklistDB) (now : Nat) : List BlacklistEntry :=
  db.entries.filter (entryActive now)

/-- Modelled from the spec: `get_blacklist_count()` — count of currently
active entries (expired rows do not inflate it). -/
def BlacklistDB.get_blacklist_count (db : BlacklistDB) (now : Nat) : Nat :=
  (db.activeEntries now).length

/-- Modelled from the spec: `get_blacklist_users(page, page_size)` — the
1-based `page`-th slice of `page_size` active entries in stable order. -/
def BlacklistDB.get_blacklist_users (db : BlacklistDB) (now : Nat)
    (page page_size : Int) : List BlacklistEntry :=
  (((db.activeEntries now).drop ((page - 1) * page_size).toNat).take page_size.toNat)

/-- The plugin configuration read in `MyPlugin.__init__`
(`src/main.py` lines 26-38). -/
structure Config where
  max_blacklist_duration : Int
  allow_permanent_blacklist : Bool
  show_blacklist_status : Bool
  blacklist_message : String
  allow_blacklist_admin : Bool
deriving Repr, DecidableEq

/-- The slice of `AstrMessageEvent` the plugin reads: sender id, bot (self)
id, admin capability, whether the message is addressed to the bot, and the
message components (only emptiness of `get_messages()` matters). -/
structure Event where
  sender_id : String
  self_id : String
  is_admin : Bool
  is_at_or_wake_command : Bool
  messages : List String
deriving Repr, DecidableEq

/-- Outcome of `on_all_message`: whether `event.stop_event()` was called,
the replies sent via `event.send`, and the store afterwards. -/
structure HandlerResult where
  stopped : Bool
  replies : List String
  db : BlacklistDB
deriving Repr, DecidableEq

/-- `MyPlugin.on_all_message` (`src/main.py` lines 86-104): ignore messages
not addressed to the bot; ignore admin senders unless admins may be
blacklisted; if the sender is blacklisted, stop the event and, when the
message has components and `show_blacklist_status` is set, send the
configured notice once. -/
def on_all_message (cfg : Config) (db : BlacklistDB) (now : Nat)
    (ev : Event) : HandlerResult :=
  if !ev.is_at_or_wake_command then ⟨false, [], db⟩
  else if ev.is_admin && !cfg.allow_blacklist_admin then ⟨false, [], db⟩
  else
    let r := db.is_user_blacklisted now ev.sender_id
    if r.1 then
      if ev.messages.isEmpty then ⟨true, [], r.2⟩
      else if cfg.show_blacklist_status then ⟨true, [cfg.blacklist_message], r.2⟩
      else ⟨true, [], r.2⟩
    else ⟨false, [], r.2⟩

/-- A scalar or array value inside a tool's JSON payload. -/
inductive JVal where
  | jb : Bool → JVal
  | js : String → JVal
  | ji : Int → JVal
  | jarr : List (List (String × JVal)) → JVal

/-- A JSON object payload: ordered key/value pairs. -/
def JObj := List (String × JVal)

/-- Value of key `k` in the payload, if present. -/
def JObj.get? (o : JObj) (k : String) : Option JVal :=
  (o.find? (fun p => p.1 == k)).map Prod.snd

/-- The keys of the payload, in order. -/
def JObj.keys (o : JObj) : List String := o.map Prod.fst

/-- The boolean value of the payload's `success` key, when the key is
present with a boolean value. -/
def JObj.successFlag (o : JObj) : Option Bool :=
  match o.get? "success" with
  | some (JVal.jb b) => some b
  | _ => none

/-- Result of an agent tool call: the JSON payload returned to the agent and
the store afterwards. -/
structure ToolOut where
  payload : JObj
  db : BlacklistDB

/-- `target_id = user_id if user_id else event.get_sender_id()`
(`src/main.py` line 276): Python treats both `None` and the empty string as
falsy. -/
def blockTarget (ev : Event) (user_id : Option String) : String :=
  match user_id with
  | some u => if u == "" then ev.sender_id else u
  | none => ev.sender_id

/-- The duration actually applied by `block_user` (`src/main.py` lines
313-321): a requested duration of zero is replaced by the configured maximum
when permanent blacklisting is disallowed, then any value above the maximum
is reduced to the maximum. -/
def effectiveDuration (cfg : Config) (duration : Int) : Int :=
  let d := if duration == 0 && !cfg.allow_permanent_blacklist
           then cfg.max_blacklist_duration else duration
  if d > cfg.max_blacklist_duration then cfg.max_blacklist_duration else d

/-- `MyPlugin.block_user` (`src/main.py` lines 263-344), the agent tool:
permission check, admin-target check, duplicate check, duration capping,
then `add_user` (whose return value the code ignores). -/
def block_user (cfg : Config) (db : BlacklistDB) (now : Nat) (ev : Event)
    (user_id : Option String) (duration : Int) (reason : String) : ToolOut :=
  let target_id := blockTarget ev user_id
  let sender_id := ev.sender_id
  let self_id := ev.self_id
  let is_self_defense := target_id == sender_id
  if !ev.is_admin && !is_self_defense && !(sender_id == self_id) then
    ⟨[("success", JVal.jb false),
      ("message", JVal.js ("权限不足。您(" ++ sender_id ++ ")没有权限拉黑其他用户(" ++ target_id ++ ")。"))], db⟩
  else if (target_id == sender_id) && ev.is_admin && !cfg.allow_blacklist_admin then
    ⟨[("success", JVal.jb false), ("message", JVal.js "不能拉黑管理员。")], db⟩
  else
    let r := db.is_user_blacklisted now target_id
    if r.1 then
      ⟨[("success", JVal.jb true),
        ("message", JVal.js ("用户 " ++ target_id ++ " 已在黑名单中，无需重复添加。")),
        ("user_id", JVal.js target_id)], r.2⟩
    else
      let ban_time := now
      let actual_duration := effectiveDuration cfg duration
      let expire_time : Option Nat :=
        if actual_duration > 0 then some (now + actual_duration.toNat) else none
      let a := r.2.add_user target_id ban_time expire_time reason
      ⟨[("success", JVal.jb true),
        ("message", JVal.js ("用户 " ++ target_id ++ " 已拉黑。")),
        ("user_id", JVal.js target_id),
        ("duration", if actual_duration > 0 then JVal.ji actual_duration else JVal.js "永久"),
        ("reason", JVal.js reason)], a.2⟩

/-- `MyPlugin.unblock_user` (`src/main.py` lines 346-394), the agent tool:
only admins or the bot itself may unblock; removing an absent user is a
reported success. -/
def unblock_user (db : BlacklistDB) (now : Nat) (ev : Event)
    (user_id : String) : ToolOut :=
  if !ev.is_admin && !(ev.sender_id == ev.self_id) then
    ⟨[("success", JVal.jb false),
      ("message", JVal.js "权限不足。只有管理员可以解除拉黑。")], db⟩
  else
    let r := db.get_user_info now user_id
    match r.1 with
    | none =>
      ⟨[("success", JVal.jb true),
        ("message", JVal.js ("用户 " ++ user_id ++ " 不在黑名单中。")),
        ("user_id", JVal.js user_id)], r.2⟩
    | some _ =>
      let rm := r.2.remove_user user_id
      if rm.1 then
        ⟨[("success", JVal.jb true),
          ("message", JVal.js ("用户 " ++ user_id ++ " 已解除拉黑。")),
          ("user_id", JVal.js user_id)], rm.2⟩
      else
        ⟨[("success", JVal.jb false),
          ("message", JVal.js "解除拉黑用户时失败。")], rm.2⟩

/-- `total_pages = (total_count + page_size - 1) // page_size`
(`src/main.py` lines 126 and 416); Python `//` is floor division. -/
def totalPages (total_count : Nat) (page_size : Int) : Int :=
  Int.fdiv ((total_count : Int) + page_size - 1) page_size

/-- The page clamping of `src/main.py` lines 127-130 and 417-418: a page
below 1 becomes 1, a page above the last becomes the last. -/
def clampPage (total_pages page : Int) : Int :=
  if page < 1 then 1 else if page > total_pages then total_pages else page

/-- The JSON object built for one listed user (`src/main.py` lines
423-430). -/
def listedUser (e : BlacklistEntry) : List (String × JVal) :=
  [("user_id", JVal.js e.user_id),
   ("ban_time", JVal.ji (e.ban_time : Int)),
   ("expire_time", match e.expire_time with
     | some t => JVal.ji (t : Int)
     | none => JVal.js "永久"),
   ("reason", JVal.js (if e.reason == "" then "无" else e.reason))]

/-- `MyPlugin.list_blacklist` (`src/main.py` lines 396-443), the agent tool:
empty store yields a bare count; otherwise the page is clamped and the
requested slice returned with paging metadata. -/
def list_blacklist (db : BlacklistDB) (now : Nat)
    (page page_size : Int) : ToolOut :=
  let total_count := db.get_blacklist_count now
  if total_count == 0 then
    ⟨[("total_count", JVal.ji 0), ("users", JVal.jarr [])], db⟩
  else
    let total_pages := totalPages total_count page_size
    let page := clampPage total_pages page
    let users_data := db.get_blacklist_users now page page_size
    ⟨[("total_count", JVal.ji (total_count : Int)),
      ("total_pages", JVal.ji total_pages),
      ("current_page", JVal.ji page),
      ("page_size", JVal.ji page_size),
      ("users", JVal.jarr (users_data.map listedUser))], db⟩

/-- `MyPlugin.get_blacklist_status` (`src/main.py` lines 445-474), the agent
tool: expiry-aware lookup of the target (defaulting to the sender). -/
def get_blacklist_status (db : BlacklistDB) (now : Nat) (ev : Event)
    (user_id : Option String) : ToolOut :=
  let target_id := blockTarget ev user_id
  let r := db.get_user_info now target_id
  match r.1 with
  | some e =>
    ⟨[("is_blacklisted", JVal.jb true),
      ("user_id", JVal.js e.user_id),
      ("ban_time", JVal.ji (e.ban_time : Int)),
      ("expire_time", match e.expire_time with
        | some t => JVal.ji (t : Int)
        | none => JVal.js "永久"),
      ("reason", JVal.js (if e.reason == "" then "无" else e.reason))], r.2⟩
  | none =>
    ⟨[("is_blacklisted", JVal.jb false),
      ("user_id", JVal.js target_id)], r.2⟩

/-- `MyPlugin.add` (`src/main.py` lines 184-209), the admin `blacklist add`
command: no duration capping at all — the requested duration is applied and
echoed as-is.  Returns the plain-text reply and the store afterwards. -/
def admin_add (db : BlacklistDB) (now : Nat) (user_id : String)
    (duration : Int) (reason : String) : String × BlacklistDB :=
  let ban_time := now
  let expire_time : Option Nat :=
    if duration > 0 then some (now + duration.toNat) else none
  let a := db.add_user user_id ban_time expire_time reason
  if a.1 then
    if duration > 0 then
      ("用户 " ++ user_id ++ " 已被加入黑名单，时长 " ++ toString duration ++ " 秒。", a.2)
    else ("用户 " ++ user_id ++ " 已被永久加入黑名单。", a.2)
  else ("添加用户到黑名单时出错。", a.2)

/-- `MyPlugin.ls` (`src/main.py` lines 110-163), the admin `blacklist ls`
command, reduced to its data outcome: `none` when the blacklist is empty
("黑名单为空。"), otherwise the listed entries together with the clamped
page and total page count used to render the table. -/
def admin_ls (db : BlacklistDB) (now : Nat)
    (page page_size : Int) : Option (List BlacklistEntry × Int × Int) :=
  let total_count := db.get_blacklist_count now
  if total_count == 0 then none
  else
    let total_pages := totalPages total_count page_size
    let page := clampPage total_pages page
    some (db.get_blacklist_users now page page_size, page, total_pages)

/-- A concrete store with 25 active (permanent) entries, for the spec's
pagination scenario. -/
def db25 : BlacklistDB :=
  ⟨(List.range 25).map (fun i => ⟨toString i, i, none, ""⟩), false⟩

/-! ### Helper lemmas about the store model -/

/-- A lookup that answers `true` leaves the store untouched (the lazy purge
only fires on an expired row, which answers `false`). -/
theorem is_user_blacklisted_true_db (db : BlacklistDB) (now : Nat) (uid : String)
    (h : (db.is_user_blacklisted now uid).1 = true) :
    (db.is_user_blacklisted now uid).2 = db := by
  unfold BlacklistDB.is_user_blacklisted at h ⊢
  cases hf : db.entries.find? (fun e => e.user_id == uid) with
  | none => simp [hf] at h
  | some e =>
    by_cases ha : entryActive now e = true
    · simp [hf, ha]
    · simp [hf, ha] at h

/-- The lazy purge never flips the storage-fault flag. -/
theorem is_user_blacklisted_broken (db : BlacklistDB) (now : Nat) (uid : String) :
    (db.is_user_blacklisted now uid).2.broken = db.broken := by
  unfold BlacklistDB.is_user_blacklisted
  cases hf : db.entries.find? (fun e => e.user_id == uid) with
  | none => rfl
  | some e =>
    by_cases ha : entryActive now e = true
    · simp [ha]
    · simp [ha]

/-- After the delete-then-insert upsert, looking the key up finds exactly
the inserted record. -/
theorem find_after_upsert (l : List BlacklistEntry) (uid : String)
    (e : BlacklistEntry) (he : e.user_id = uid) :
    ((l.filter (fun x => x.user_id != uid)) ++ [e]).find?
      (fun x => x.user_id == uid) = some e := by
  induction l with
  | nil => simp [List.find?, he]
  | cons a t ih =>
    by_cases ha : a.user_id = uid
    · simp only [List.filter_cons]
      have h1 : (a.user_id != uid) = false := by simp [ha]
      simp only [h1]
      exact ih
    · simp only [List.filter_cons]
      have h1 : (a.user_id != uid) = true := by simp [ha]
      have h2 : (a.user_id == uid) = false := by simp [ha]
      simp only [h1, if_true, List.cons_append]
      rw [List.find?_cons]
      simp only [h2]
      exact ih

/-- With at least one active entry and a positive page size, the page count
computed by the listing code is at least 1. -/
theorem one_le_totalPages (total_count : Nat) (ps : Int)
    (hc : 0 < total_count) (hps : 0 < ps) : 1 ≤ totalPages total_count ps := by
  unfold totalPages
  rw [Int.fdiv_eq_ediv _ (le_of_lt hps)]
  rw [Int.le_ediv_iff_mul_le hps]
  have hc' : (1 : Int) ≤ (total_count : Int) := by exact_mod_cast hc
  omega

/-- The page clamping of the two listing operations: the result is a valid
page, a page below 1 clamps to 1, a page beyond the last clamps to the last,
and an in-range page is untouched. -/
theorem clampPage_spec (tp page : Int) (htp : 1 ≤ tp) :
    1 ≤ clampPage tp page ∧ clampPage tp page ≤ tp ∧
    (page < 1 → clampPage tp page = 1) ∧
    (tp < page → clampPage tp page = tp) ∧
    (1 ≤ page → page ≤ tp → clampPage tp page = page) := by
  unfold clampPage
  split_ifs <;> omega

/-! ### Claim C1 -/

/-- C1 counterexample: the claim fails as stated.  With
`allow_blacklist_admin = false`, a blacklisted *admin* sender whose message
is addressed to the bot is not suppressed at all: `on_all_message` returns
early at the admin check (`src/main.py` line 93) before consulting the
blacklist, so the event is not stopped and no notice is sent, although the
sender is currently blacklisted. -/
theorem C1_counterexample :
    ((⟨[⟨"alice", 0, none, "spam"⟩], false⟩ : BlacklistDB).is_user_blacklisted
        5 "alice").1 = true ∧
    (on_all_message ⟨86400, true, true, "[连接已中断]", false⟩
        ⟨[⟨"alice", 0, none, "spam"⟩], false⟩ 5
        ⟨"alice", "bot", true, true, ["hi"]⟩).stopped = false ∧
    (on_all_message ⟨86400, true, true, "[连接已中断]", false⟩
        ⟨[⟨"alice", 0, none, "spam"⟩], false⟩ 5
        ⟨"alice", "bot", true, true, ["hi"]⟩).replies = [] :=
  ⟨rfl, rfl, rfl⟩

/-- C1 (amended): for every inbound message addressed to the bot whose
sender is currently blacklisted, *provided the sender is not an admin or
admins may be blacklisted*, the handler stops the event; it sends exactly
one reply with the configured notice text when the show-status option is
enabled and the message has components, and no reply otherwise. -/
theorem C1_amended (cfg : Config) (db : BlacklistDB) (now : Nat) (ev : Event)
    (h1 : ev.is_at_or_wake_command = true)
    (h2 : ev.is_admin = false ∨ cfg.allow_blacklist_admin = true)
    (h3 : (db.is_user_blacklisted now ev.sender_id).1 = true) :
    (on_all_message cfg db now ev).stopped = true ∧
    (on_all_message cfg db now ev).replies =
      (if !ev.messages.isEmpty && cfg.show_blacklist_status
       then [cfg.blacklist_message] else []) := by
  have h2' : (ev.is_admin && !cfg.allow_blacklist_admin) = false := by
    rcases h2 with h | h <;> simp [h]
  by_cases hm : ev.messages.isEmpty <;>
    by_cases hs : cfg.show_blacklist_status <;>
      simp [on_all_message, h1, h2', h3, hm, hs]

/-- C1 witness: a concrete blacklisted non-admin sender with the notice
option enabled is suppressed and receives exactly the configured notice. -/
theorem C1_witness :
    (on_all_message ⟨86400, true, true, "[连接已中断]", false⟩
        ⟨[⟨"alice", 0, none, "spam"⟩], false⟩ 5
        ⟨"alice", "bot", false, true, ["hi"]⟩).stopped = true ∧
    (on_all_message ⟨86400, true, true, "[连接已中断]", false⟩
        ⟨[⟨"alice", 0, none, "spam"⟩], false⟩ 5
        ⟨"alice", "bot", false, true, ["hi"]⟩).replies = ["[连接已中断]"] := by
  have h := C1_amended ⟨86400, true, true, "[连接已中断]", false⟩
      ⟨[⟨"alice", 0, none, "spam"⟩], false⟩ 5
      ⟨"alice", "bot", false, true, ["hi"]⟩ rfl (Or.inl rfl) rfl
  exact ⟨h.1, h.2.trans (by rfl)⟩

/-! ### Claim C2 -/

/-- C2 counterexample: the claim fails for the admin `blacklist add`
command.  With a configured maximum of 100 seconds, requesting
`duration = 1100` through `MyPlugin.add` stores an entry expiring after the
full 1100 seconds and reports the requested 1100 in the reply — the command
never consults the configuration (`src/main.py` lines 184-209), whereas the
capping (shown by `effectiveDuration`) would yield 100. -/
theorem C2_counterexample :
    effectiveDuration ⟨100, true, true, "m", false⟩ 1100 = 100 ∧
    (admin_add ⟨[], false⟩ 0 "victim" 1100 "").1 =
      "用户 victim 已被加入黑名单，时长 1100 秒。" ∧
    ((admin_add ⟨[], false⟩ 0 "victim" 1100 "").2.entries.map
      (fun e => e.expire_time)) = [some 1100] :=
  ⟨by decide, rfl, rfl⟩

/-- C2 (amended): the duration-capping rules hold for the agent
`block_user` tool only.  For every `block_user` call that reaches the add
path, the payload reports the effective duration `effectiveDuration`, which
equals the configured maximum both when the request exceeds the maximum and
when a zero (permanent) request meets disabled permanent blacklisting; the
admin `blacklist add` command applies and reports the requested duration
unmodified. -/
theorem C2_amended (cfg : Config) (db : BlacklistDB) (now : Nat) (ev : Event)
    (user_id : Option String) (duration : Int) (reason : String)
    (db2 : BlacklistDB) (now2 : Nat) (uid2 : String) (reason2 : String)
    (hperm : (!ev.is_admin && !(blockTarget ev user_id == ev.sender_id) &&
      !(ev.sender_id == ev.self_id)) = false)
    (hadm : ((blockTarget ev user_id == ev.sender_id) && ev.is_admin &&
      !cfg.allow_blacklist_admin) = false)
    (hdup : (db.is_user_blacklisted now (blockTarget ev user_id)).1 = false) :
    (block_user cfg db now ev user_id duration reason).payload.get? "duration" =
      some (if effectiveDuration cfg duration > 0
            then JVal.ji (effectiveDuration cfg duration) else JVal.js "永久") ∧
    (duration > cfg.max_blacklist_duration →
      effectiveDuration cfg duration = cfg.max_blacklist_duration) ∧
    (duration = 0 → cfg.allow_permanent_blacklist = false →
      effectiveDuration cfg duration = cfg.max_blacklist_duration) ∧
    (db2.broken = false → 0 < duration →
      (admin_add db2 now2 uid2 duration reason2).1 =
        "用户 " ++ uid2 ++ " 已被加入黑名单，时长 " ++ toString duration ++ " 秒。") := by
  refine ⟨?_, ?_, ?_, ?_⟩
  · simp only [block_user, hperm, hadm, hdup]
    by_cases hd : effectiveDuration cfg duration > 0 <;>
      simp [JObj.get?, hd]
  · intro h
    by_cases h0 : (duration == 0 && !cfg.allow_permanent_blacklist) = true
    · simp [effectiveDuration, h0]
    · simp only [Bool.not_eq_true] at h0
      simp [effectiveDuration, h0, h]
  · intro h1 h2
    simp [effectiveDuration, h1, h2]
  · intro hb hd
    unfold admin_add BlacklistDB.add_user
    rw [hb]
    simp [hd]

/-- C2 witness: configured maximum 100, requested duration 1100 via
`block_user` by an admin — the payload's `duration` field reports the capped
value 100, and the admin command reports 1100. -/
theorem C2_witness :
    (block_user ⟨100, true, true, "m", false⟩ ⟨[], false⟩ 0
        ⟨"admin", "bot", true, true, ["hi"]⟩ (some "victim") 1100 "bad").payload.get?
        "duration" = some (JVal.ji 100) ∧
    (admin_add ⟨[], false⟩ 0 "victim" 1100 "bad").1 =
      "用户 victim 已被加入黑名单，时长 1100 秒。" := by
  have h := C2_amended ⟨100, true, true, "m", false⟩ ⟨[], false⟩ 0
      ⟨"admin", "bot", true, true, ["hi"]⟩ (some "victim") 1100 "bad"
      ⟨[], false⟩ 0 "victim" "bad" (by decide) (by decide) rfl
  exact ⟨h.1.trans (by rfl), h.2.2.2 rfl (by decide)⟩

/-! ### Claim C3 -/

/-- C3: a `block_user` call by a non-admin caller, targeting someone other
than themselves, with a caller identity different from the bot's own,
returns `success = false` with the permission-denied message and leaves the
store exactly as it was. -/
theorem C3_permission_denied (cfg : Config) (db : BlacklistDB) (now : Nat)
    (ev : Event) (user_id : Option String) (duration : Int) (reason : String)
    (h1 : ev.is_admin = false)
    (h2 : (blockTarget ev user_id == ev.sender_id) = false)
    (h3 : (ev.sender_id == ev.self_id) = false) :
    (block_user cfg db now ev user_id duration reason).payload.successFlag =
      some false ∧
    (block_user cfg db now ev user_id duration reason).payload.get? "message" =
      some (JVal.js ("权限不足。您(" ++ ev.sender_id ++ ")没有权限拉黑其他用户(" ++
        blockTarget ev user_id ++ ")。")) ∧
    (block_user cfg db now ev user_id duration reason).db = db := by
  simp [block_user, h1, h2, h3, JObj.successFlag, JObj.get?]

/-- C3 witness: a concrete non-admin, non-self, non-bot request is denied
and the store is untouched. -/
theorem C3_witness :
    (block_user ⟨86400, true, true, "m", false⟩ ⟨[], false⟩ 0
        ⟨"eve", "bot", false, true, ["hi"]⟩ (some "bob") 60 "grudge").payload.successFlag =
      some false ∧
    (block_user ⟨86400, true, true, "m", false⟩ ⟨[], false⟩ 0
        ⟨"eve", "bot", false, true, ["hi"]⟩ (some "bob") 60 "grudge").payload.get?
        "message" =
      some (JVal.js ("权限不足。您(" ++ ("eve" : String) ++ ")没有权限拉黑其他用户(" ++
        blockTarget ⟨"eve", "bot", false, true, ["hi"]⟩ (some "bob") ++ ")。")) ∧
    (block_user ⟨86400, true, true, "m", false⟩ ⟨[], false⟩ 0
        ⟨"eve", "bot", false, true, ["hi"]⟩ (some "bob") 60 "grudge").db =
      ⟨[], false⟩ :=
  C3_permission_denied ⟨86400, true, true, "m", false⟩ ⟨[], false⟩ 0
    ⟨"eve", "bot", false, true, ["hi"]⟩ (some "bob") 60 "grudge"
    rfl (by decide) (by decide)

/-! ### Claim C4 -/

/-- C4 counterexample: the claim fails as stated.  `block_user` discards the
return value of `add_user` (`src/main.py` line 328): against a faulted store
(modelled by `broken = true`) whose `add_user` reports failure, the tool
still answers `success = true` while no entry has been created. -/
theorem C4_counterexample :
    ((⟨[], true⟩ : BlacklistDB).add_user "mallory" 0 none "").1 = false ∧
    (block_user ⟨86400, true, true, "m", false⟩ ⟨[], true⟩ 0
        ⟨"admin", "bot", true, true, ["hi"]⟩ (some "mallory") 0 "").payload.successFlag =
      some true ∧
    (block_user ⟨86400, true, true, "m", false⟩ ⟨[], true⟩ 0
        ⟨"admin", "bot", true, true, ["hi"]⟩ (some "mallory") 0 "").db.entries = [] :=
  ⟨rfl, rfl, rfl⟩

/-- C4 (amended): a `block_user` call that passes the permission and
duplicate checks reports `success = true` unconditionally — the tool ignores
`add_user`'s boolean result, so a storage failure reported by the store as
`false` is not reflected in the payload; only a raised exception would
produce `success = false`. -/
theorem C4_amended (cfg : Config) (db : BlacklistDB) (now : Nat) (ev : Event)
    (user_id : Option String) (duration : Int) (reason : String)
    (hperm : (!ev.is_admin && !(blockTarget ev user_id == ev.sender_id) &&
      !(ev.sender_id == ev.self_id)) = false)
    (hadm : ((blockTarget ev user_id == ev.sender_id) && ev.is_admin &&
      !cfg.allow_blacklist_admin) = false)
    (hdup : (db.is_user_blacklisted now (blockTarget ev user_id)).1 = false) :
    (block_user cfg db now ev user_id duration reason).payload.successFlag =
      some true := by
  simp only [block_user, hperm, hadm, hdup]
  simp [JObj.successFlag, JObj.get?]

/-- C4 witness: the amended statement applied at a faulted store — success
is still reported. -/
theorem C4_witness :
    (block_user ⟨86400, true, true, "m", false⟩ ⟨[], true⟩ 0
        ⟨"admin", "bot", true, true, ["hi"]⟩ (some "mallory") 0 "").payload.successFlag =
      some true :=
  C4_amended ⟨86400, true, true, "m", false⟩ ⟨[], true⟩ 0
    ⟨"admin", "bot", true, true, ["hi"]⟩ (some "mallory") 0 ""
    (by decide) (by decide) rfl

/-! ### Claim C5 -/

/-- C5 counterexample: the claim fails as stated.  No `list_blacklist` or
`get_blacklist_status` payload carries a `success` flag, on any path:
the empty-store listing has keys `total_count`/`users` only (`src/main.py`
lines 410-414), the non-empty listing has the five paging keys (lines
432-438), and the status payloads have the found-user and absent-user key
sets (lines 458-469) — none of which includes `success`. -/
theorem C5_counterexample :
    (list_blacklist ⟨[], false⟩ 0 1 10).payload.keys = ["total_count", "users"] ∧
    (list_blacklist ⟨[], false⟩ 0 1 10).payload.successFlag = none ∧
    (list_blacklist ⟨[⟨"bob", 0, none, "spam"⟩], false⟩ 0 1 10).payload.keys =
      ["total_count", "total_pages", "current_page", "page_size", "users"] ∧
    (list_blacklist ⟨[⟨"bob", 0, none, "spam"⟩], false⟩ 0 1 10).payload.successFlag =
      none ∧
    (get_blacklist_status ⟨[], false⟩ 0 ⟨"eve", "bot", false, true, []⟩
        (some "bob")).payload.keys = ["is_blacklisted", "user_id"] ∧
    (get_blacklist_status ⟨[], false⟩ 0 ⟨"eve", "bot", false, true, []⟩
        (some "bob")).payload.successFlag = none ∧
    (get_blacklist_status ⟨[⟨"bob", 0, none, "spam"⟩], false⟩ 5
        ⟨"eve", "bot", false, true, []⟩ (some "bob")).payload.keys =
      ["is_blacklisted", "user_id", "ban_time", "expire_time", "reason"] ∧
    (get_blacklist_status ⟨[⟨"bob", 0, none, "spam"⟩], false⟩ 5
        ⟨"eve", "bot", false, true, []⟩ (some "bob")).payload.successFlag = none :=
  ⟨rfl, rfl, rfl, rfl, rfl, rfl, rfl, rfl⟩

/-- C5 (amended): every invocation of the four agent tools returns a
structured key-value payload — `block_user` and `unblock_user` always
include a boolean `success` flag, while `list_blacklist` and
`get_blacklist_status` always return a non-empty payload that contains no
`success` key at all — and, being total functions of their inputs, none
propagates an exception. -/
theorem C5_amended (cfg : Config) (db1 db2 db3 db4 : BlacklistDB) (now : Nat)
    (ev : Event) (uid1 : Option String) (duration : Int) (reason : String)
    (uid2 : String) (page page_size : Int) (uid4 : Option String) :
    ((block_user cfg db1 now ev uid1 duration reason).payload.successFlag).isSome =
      true ∧
    ((unblock_user db2 now ev uid2).payload.successFlag).isSome = true ∧
    ((list_blacklist db3 now page page_size).payload ≠ [] ∧
     (list_blacklist db3 now page page_size).payload.get? "success" = none) ∧
    ((get_blacklist_status db4 now ev uid4).payload ≠ [] ∧
     (get_blacklist_status db4 now ev uid4).payload.get? "success" = none) := by
  refine ⟨?_, ?_, ?_, ?_⟩
  · simp only [block_user]
    split
    · rfl
    · split
      · rfl
      · split <;> rfl
  · simp only [unblock_user]
    split
    · rfl
    · split
      · rfl
      · split <;> rfl
  · simp only [list_blacklist]
    split <;> simp [JObj.get?]
  · simp only [get_blacklist_status]
    split <;> simp [JObj.get?]

/-! ### Claim C6 -/

/-- C6: a self-targeting `block_user` call (`blockTarget` equals the
sender) by a non-admin succeeds; by an admin it is rejected with
`success = false` and the "不能拉黑管理员。" message when admin blacklisting
is disabled, and succeeds when that flag is set. -/
theorem C6_self_target (cfg : Config) (db : BlacklistDB) (now : Nat)
    (ev : Event) (user_id : Option String) (duration : Int) (reason : String)
    (hself : (blockTarget ev user_id == ev.sender_id) = true) :
    (ev.is_admin = false →
      (block_user cfg db now ev user_id duration reason).payload.successFlag =
        some true) ∧
    (ev.is_admin = true → cfg.allow_blacklist_admin = false →
      (block_user cfg db now ev user_id duration reason).payload.successFlag =
        some false ∧
      (block_user cfg db now ev user_id duration reason).payload.get? "message" =
        some (JVal.js "不能拉黑管理员。")) ∧
    (ev.is_admin = true → cfg.allow_blacklist_admin = true →
      (block_user cfg db now ev user_id duration reason).payload.successFlag =
        some true) := by
  refine ⟨?_, ?_, ?_⟩
  · intro ha
    simp only [block_user, hself, ha]
    by_cases hd : (db.is_user_blacklisted now (blockTarget ev user_id)).1 = true <;>
      simp [hd, JObj.successFlag, JObj.get?]
  · intro ha hf
    simp [block_user, hself, ha, hf, JObj.successFlag, JObj.get?]
  · intro ha hf
    simp only [block_user, hself, ha, hf]
    by_cases hd : (db.is_user_blacklisted now (blockTarget ev user_id)).1 = true <;>
      simp [hd, JObj.successFlag, JObj.get?]

/-- C6 witness: a non-admin blocking themselves succeeds; the same
self-target by an admin is rejected while admin blacklisting is disabled and
accepted once it is allowed. -/
theorem C6_witness :
    ((⟨"eve", "bot", false, true, ["hi"]⟩ : Event).is_admin = false →
      (block_user ⟨86400, true, true, "m", false⟩ ⟨[], false⟩ 0
        ⟨"eve", "bot", false, true, ["hi"]⟩ none 60 "self mute").payload.successFlag =
        some true) ∧
    ((⟨"eve", "bot", false, true, ["hi"]⟩ : Event).is_admin = true →
      (⟨86400, true, true, "m", false⟩ : Config).allow_blacklist_admin = false →
      (block_user ⟨86400, true, true, "m", false⟩ ⟨[], false⟩ 0
        ⟨"eve", "bot", false, true, ["hi"]⟩ none 60 "self mute").payload.successFlag =
        some false ∧
      (block_user ⟨86400, true, true, "m", false⟩ ⟨[], false⟩ 0
        ⟨"eve", "bot", false, true, ["hi"]⟩ none 60 "self mute").payload.get?
        "message" = some (JVal.js "不能拉黑管理员。")) ∧
    ((⟨"eve", "bot", false, true, ["hi"]⟩ : Event).is_admin = true →
      (⟨86400, true, true, "m", false⟩ : Config).allow_blacklist_admin = true →
      (block_user ⟨86400, true, true, "m", false⟩ ⟨[], false⟩ 0
        ⟨"eve", "bot", false, true, ["hi"]⟩ none 60 "self mute").payload.successFlag =
        some true) :=
  C6_self_target ⟨86400, true, true, "m", false⟩ ⟨[], false⟩ 0
    ⟨"eve", "bot", false, true, ["hi"]⟩ none 60 "self mute" (by decide)

/-! ### Claim C7 -/

/-- C7 counterexample: the claim fails as universally stated.  A non-admin
third party calling `block_user` on a target that *is* already actively
blacklisted is rejected by the permission check with `success = false`
(`src/main.py` lines 290-294), not the success the claim promises for every
call with an actively blacklisted target. -/
theorem C7_counterexample :
    ((⟨[⟨"bob", 0, none, "spam"⟩], false⟩ : BlacklistDB).is_user_blacklisted
        5 "bob").1 = true ∧
    (block_user ⟨86400, true, true, "m", false⟩ ⟨[⟨"bob", 0, none, "spam"⟩], false⟩ 5
        ⟨"eve", "bot", false, true, ["hi"]⟩ (some "bob") 0 "").payload.successFlag =
      some false :=
  ⟨rfl, rfl⟩

/-- C7 (amended): a `block_user` call that passes the permission checks and
whose target is already actively blacklisted returns `success = true` with
the duplicate message and leaves the store — hence the existing entry's
`ban_time`, `expire_time` and `reason` — completely unchanged. -/
theorem C7_amended (cfg : Config) (db : BlacklistDB) (now : Nat) (ev : Event)
    (user_id : Option String) (duration : Int) (reason : String)
    (hperm : (!ev.is_admin && !(blockTarget ev user_id == ev.sender_id) &&
      !(ev.sender_id == ev.self_id)) = false)
    (hadm : ((blockTarget ev user_id == ev.sender_id) && ev.is_admin &&
      !cfg.allow_blacklist_admin) = false)
    (hdup : (db.is_user_blacklisted now (blockTarget ev user_id)).1 = true) :
    (block_user cfg db now ev user_id duration reason).payload.successFlag =
      some true ∧
    (block_user cfg db now ev user_id duration reason).db = db := by
  have hdb := is_user_blacklisted_true_db db now (blockTarget ev user_id) hdup
  simp [block_user, hperm, hadm, hdup, hdb, JObj.successFlag, JObj.get?]

/-- C7 witness: an admin re-blocking an already actively blacklisted user
gets success and the stored entry (ban time 0, permanent, reason "spam") is
untouched. -/
theorem C7_witness :
    (block_user ⟨86400, true, true, "m", false⟩ ⟨[⟨"bob", 0, none, "spam"⟩], false⟩ 5
        ⟨"admin", "bot", true, true, ["hi"]⟩ (some "bob") 60 "again").payload.successFlag =
      some true ∧
    (block_user ⟨86400, true, true, "m", false⟩ ⟨[⟨"bob", 0, none, "spam"⟩], false⟩ 5
        ⟨"admin", "bot", true, true, ["hi"]⟩ (some "bob") 60 "again").db =
      ⟨[⟨"bob", 0, none, "spam"⟩], false⟩ :=
  C7_amended ⟨86400, true, true, "m", false⟩ ⟨[⟨"bob", 0, none, "spam"⟩], false⟩ 5
    ⟨"admin", "bot", true, true, ["hi"]⟩ (some "bob") 60 "again"
    (by decide) (by decide) rfl

/-! ### Claim C8 -/

/-- C8: an authorized `unblock_user` call (admin caller, or the caller
identity equal to the bot's) on a user with no current entry returns
`success = true` with the "not on the blacklist" message. -/
theorem C8_unblock_absent (db : BlacklistDB) (now : Nat) (ev : Event)
    (user_id : String)
    (hauth : (!ev.is_admin && !(ev.sender_id == ev.self_id)) = false)
    (habs : (db.get_user_info now user_id).1 = none) :
    (unblock_user db now ev user_id).payload.successFlag = some true ∧
    (unblock_user db now ev user_id).payload.get? "message" =
      some (JVal.js ("用户 " ++ user_id ++ " 不在黑名单中。")) := by
  simp [unblock_user, hauth, habs, JObj.successFlag, JObj.get?]

/-- C8 witness: an admin unblocking an absent user is told, with success,
that the user is not on the blacklist. -/
theorem C8_witness :
    (unblock_user ⟨[], false⟩ 0 ⟨"admin", "bot", true, true, ["hi"]⟩
        "ghost").payload.successFlag = some true ∧
    (unblock_user ⟨[], false⟩ 0 ⟨"admin", "bot", true, true, ["hi"]⟩
        "ghost").payload.get? "message" =
      some (JVal.js ("用户 " ++ ("ghost" : String) ++ " 不在黑名单中。")) :=
  C8_unblock_absent ⟨[], false⟩ 0 ⟨"admin", "bot", true, true, ["hi"]⟩ "ghost"
    (by decide) rfl

/-! ### Claim C9 -/

/-- C9: both listing operations clamp an out-of-range page instead of
erroring: over a non-empty blacklist with positive page size, the page
actually used is between 1 and the last page, a request below 1 becomes
page 1, a request beyond the last page becomes the last page, and this page
is what `admin_ls` lists and `list_blacklist` echoes as `current_page`.  In
the spec's concrete scenario — 25 active entries, page size 10 — page 0
clamps to page 1 (10 entries), page 4 clamps to page 3 (5 entries), and
pages 1, 2, 3 hold 10, 10 and 5 entries. -/
theorem C9_pagination (db : BlacklistDB) (now : Nat) (page ps : Int)
    (hps : 0 < ps) (hne : db.get_blacklist_count now ≠ 0) :
    admin_ls db now page ps =
      some (db.get_blacklist_users now
              (clampPage (totalPages (db.get_blacklist_count now) ps) page) ps,
            clampPage (totalPages (db.get_blacklist_count now) ps) page,
            totalPages (db.get_blacklist_count now) ps) ∧
    (list_blacklist db now page ps).payload.get? "current_page" =
      some (JVal.ji (clampPage (totalPages (db.get_blacklist_count now) ps) page)) ∧
    (1 ≤ clampPage (totalPages (db.get_blacklist_count now) ps) page ∧
     clampPage (totalPages (db.get_blacklist_count now) ps) page ≤
       totalPages (db.get_blacklist_count now) ps) ∧
    (page < 1 →
      clampPage (totalPages (db.get_blacklist_count now) ps) page = 1) ∧
    (totalPages (db.get_blacklist_count now) ps < page →
      clampPage (totalPages (db.get_blacklist_count now) ps) page =
        totalPages (db.get_blacklist_count now) ps) ∧
    ((admin_ls db25 0 0 10).map (fun x => (x.1.length, x.2)) = some (10, 1, 3) ∧
     (admin_ls db25 0 1 10).map (fun x => (x.1.length, x.2)) = some (10, 1, 3) ∧
     (admin_ls db25 0 2 10).map (fun x => (x.1.length, x.2)) = some (10, 2, 3) ∧
     (admin_ls db25 0 3 10).map (fun x => (x.1.length, x.2)) = some (5, 3, 3) ∧
     (admin_ls db25 0 4 10).map (fun x => (x.1.length, x.2)) = some (5, 3, 3)) := by
  have h0 : (db.get_blacklist_count now == 0) = false := by
    simpa using hne
  have htp : 1 ≤ totalPages (db.get_blacklist_count now) ps :=
    one_le_totalPages _ _ (Nat.pos_of_ne_zero hne) hps
  have hb := clampPage_spec (totalPages (db.get_blacklist_count now) ps) page htp
  refine ⟨?_, ?_, ⟨hb.1, hb.2.1⟩, hb.2.2.1, hb.2.2.2.1, by decide⟩
  · simp [admin_ls, h0]
  · simp [list_blacklist, h0, JObj.get?]

/-- C9 witness: the clamping facts evaluated over the concrete 25-entry
store with page size 10 and requested page 0. -/
theorem C9_witness :
    admin_ls db25 0 0 10 =
      some (db25.get_blacklist_users 0
              (clampPage (totalPages (db25.get_blacklist_count 0) 10) 0) 10,
            clampPage (totalPages (db25.get_blacklist_count 0) 10) 0,
            totalPages (db25.get_blacklist_count 0) 10) ∧
    (list_blacklist db25 0 0 10).payload.get? "current_page" =
      some (JVal.ji (clampPage (totalPages (db25.get_blacklist_count 0) 10) 0)) ∧
    (1 ≤ clampPage (totalPages (db25.get_blacklist_count 0) 10) 0 ∧
     clampPage (totalPages (db25.get_blacklist_count 0) 10) 0 ≤
       totalPages (db25.get_blacklist_count 0) 10) ∧
    ((0 : Int) < 1 →
      clampPage (totalPages (db25.get_blacklist_count 0) 10) 0 = 1) ∧
    (totalPages (db25.get_blacklist_count 0) 10 < 0 →
      clampPage (totalPages (db25.get_blacklist_count 0) 10) 0 =
        totalPages (db25.get_blacklist_count 0) 10) ∧
    ((admin_ls db25 0 0 10).map (fun x => (x.1.length, x.2)) = some (10, 1, 3) ∧
     (admin_ls db25 0 1 10).map (fun x => (x.1.length, x.2)) = some (10, 1, 3) ∧
     (admin_ls db25 0 2 10).map (fun x => (x.1.length, x.2)) = some (10, 2, 3) ∧
     (admin_ls db25 0 3 10).map (fun x => (x.1.length, x.2)) = some (5, 3, 3) ∧
     (admin_ls db25 0 4 10).map (fun x => (x.1.length, x.2)) = some (5, 3, 3)) :=
  C9_pagination db25 0 0 10 (by decide) (by decide)

/-! ### Claim C10 -/

/-- The effective duration of a strictly negative request is never
positive: the zero-check does not fire, and capping can only replace the
request by an even smaller (negative) maximum. -/
theorem effectiveDuration_neg (cfg : Config) (duration : Int)
    (hneg : duration < 0) : ¬ effectiveDuration cfg duration > 0 := by
  have h0 : (duration == 0 && !cfg.allow_permanent_blacklist) = false := by
    have : (duration == 0) = false := by
      simp only [beq_eq_false_iff_ne, ne_eq]
      omega
    simp [this]
  simp only [effectiveDuration, h0, Bool.false_eq_true, if_false]
  split_ifs <;> omega

/-- C10: a `block_user` request with a strictly negative duration that
reaches the add path (permission and duplicate checks passed, store
healthy) creates a *permanent* entry — no `expire_time` — and the payload
reports the duration as "永久" (permanent), whatever the configuration
flags say; the capping branches never fire for a negative request. -/
theorem C10_negative_duration (cfg : Config) (db : BlacklistDB) (now : Nat)
    (ev : Event) (user_id : Option String) (duration : Int) (reason : String)
    (hneg : duration < 0)
    (hperm : (!ev.is_admin && !(blockTarget ev user_id == ev.sender_id) &&
      !(ev.sender_id == ev.self_id)) = false)
    (hadm : ((blockTarget ev user_id == ev.sender_id) && ev.is_admin &&
      !cfg.allow_blacklist_admin) = false)
    (hdup : (db.is_user_blacklisted now (blockTarget ev user_id)).1 = false)
    (hok : db.broken = false) :
    (block_user cfg db now ev user_id duration reason).payload.get? "duration" =
      some (JVal.js "永久") ∧
    ((block_user cfg db now ev user_id duration reason).db.entries.find?
      (fun e => e.user_id == blockTarget ev user_id)) =
      some ⟨blockTarget ev user_id, now, none, reason⟩ := by
  have heff := effectiveDuration_neg cfg duration hneg
  have hbr : (db.is_user_blacklisted now (blockTarget ev user_id)).2.broken = false :=
    (is_user_blacklisted_broken db now (blockTarget ev user_id)).trans hok
  constructor
  · simp only [block_user, hperm, hadm, hdup]
    simp [JObj.get?, heff]
  · simp only [block_user, hperm, hadm, hdup]
    simp only [BlacklistDB.add_user, hbr, Bool.false_eq_true, if_false, if_neg heff]
    exact find_after_upsert _ _ _ rfl

/-- C10 witness: with permanent blacklisting disabled and a maximum of 100
seconds, a `block_user` request for duration −5 still yields a permanent
entry reported as "永久". -/
theorem C10_witness :
    (block_user ⟨100, false, true, "m", false⟩ ⟨[], false⟩ 7
        ⟨"admin", "bot", true, true, ["hi"]⟩ (some "bob") (-5) "r").payload.get?
        "duration" = some (JVal.js "永久") ∧
    ((block_user ⟨100, false, true, "m", false⟩ ⟨[], false⟩ 7
        ⟨"admin", "bot", true, true, ["hi"]⟩ (some "bob") (-5) "r").db.entries.find?
      (fun e => e.user_id ==
        blockTarget ⟨"admin", "bot", true, true, ["hi"]⟩ (some "bob"))) =
      some ⟨blockTarget ⟨"admin", "bot", true, true, ["hi"]⟩ (some "bob"), 7, none, "r"⟩ :=
  C10_negative_duration ⟨100, false, true, "m", false⟩ ⟨[], false⟩ 7
    ⟨"admin", "bot", true, true, ["hi"]⟩ (some "bob") (-5) "r"
    (by decide) (by decide) (by decide) rfl rfl

end BlacklistTools
